import Mathlib

/-!
# Verification of the `Block` 3D-duck-visualizer widget

Shallow embedding of `src/src/block.tsx`: the `Block` React component's
state (`autoRotate`, `cameraMode`, `controlsRef`, the pending completion
timer), its mount effect (a one-shot 1000 ms timer that posts a fixed
completion message to the window and to its parent, with wildcard target
origin), the `resetCamera` handler, the auto-rotate checkbox handler, and
the `DuckModel` per-frame rotation callback.

Machine numbers that matter only as exact arithmetic (frame delta, rotation
angle, scale) are embedded as rationals; timer times in milliseconds as
naturals.
-/

namespace Block

/-! ## Messages and postMessage calls (block.tsx lines 74-77) -/

/-- The shape of the object passed to `window.postMessage`. -/
structure Message where
  type : String
  blockId : String
  completed : Bool
  deriving DecidableEq, Repr

/-- The receiving window context of a `postMessage` call: the current
window (`window.postMessage`) or the parent (`window.parent.postMessage`). -/
inductive Target where
  | self
  | parent
  deriving DecidableEq, Repr

/-- One `postMessage` call: receiving context, message object, and the
`targetOrigin` argument. -/
structure Post where
  target : Target
  msg : Message
  origin : String
  deriving DecidableEq, Repr

/-- The completion message literal of block.tsx lines 75-76:
`{ type: 'BLOCK_COMPLETION', blockId: '685da7c487fb8b8b70d865d2', completed: true }`. -/
def completionMessage : Message :=
  { type := "BLOCK_COMPLETION"
    blockId := "685da7c487fb8b8b70d865d2"
    completed := true }

/-- A `postMessage` call as embedded data. -/
def postToWindow (target : Target) (msg : Message) (targetOrigin : String) : Post :=
  { target := target, msg := msg, origin := targetOrigin }

/-- The two `postMessage` calls inside the timer callback (lines 75-76), in
source order: first to the current window, then to the parent, both with
target origin `"*"`. -/
def completionPosts : List Post :=
  [ postToWindow Target.self completionMessage "*"
  , postToWindow Target.parent completionMessage "*" ]

/-- Delay of the mount effect's `setTimeout`, line 77: 1000 ms. -/
def NOTIFY_DELAY_MS : Nat := 1000

/-! ## Timeline model of the one-shot timer (lines 73-79)

The effect runs once at mount (empty dependency list); its cleanup runs at
unmount and clears the timer. So on a timeline with mount at time 0 and an
optional unmount time, the timer callback runs exactly when the component
is not unmounted strictly before `NOTIFY_DELAY_MS`. -/

/-- Whether the `setTimeout` callback runs, as a function of the unmount
time (`none` = never unmounted). The cleanup `clearTimeout(timer)` (line 78)
suppresses the callback when unmount happens before the delay elapses. -/
def timerFires (unmountTime : Option Nat) : Bool :=
  match unmountTime with
  | none => true
  | some t => decide (NOTIFY_DELAY_MS ≤ t)

/-- All `postMessage` calls the mount effect ever performs, as a function of
the unmount time. -/
def postedByTime (unmountTime : Option Nat) : List Post :=
  if timerFires unmountTime then completionPosts else []

/-- The time (ms after mount) at which the notification is posted when the
timer fires. -/
def notificationFireTime : Nat := NOTIFY_DELAY_MS

/-! ## OrbitControls reference and `resetCamera` (lines 70, 81-85) -/

/-- Camera state of the external OrbitControls instance, abstracted to the
data `reset()` acts on. -/
structure CameraState where
  position : ℚ × ℚ × ℚ
  target : ℚ × ℚ × ℚ
  zoom : ℚ
  deriving DecidableEq, Repr

/-- An attached OrbitControls instance: its saved (initial) state and its
current state. `reset()` restores the saved state. -/
structure Controls where
  saved : CameraState
  current : CameraState
  deriving DecidableEq, Repr

/-- The external `controls.reset()`. -/
def Controls.reset (c : Controls) : Controls :=
  { c with current := c.saved }

/-- Handler `resetCamera` (lines 81-85):
`if (controlsRef.current) controlsRef.current.reset()`.
Returns the updated reference and whether `reset()` was invoked. -/
def resetCamera (controlsRef : Option Controls) : Option Controls × Bool :=
  match controlsRef with
  | none => (controlsRef, false)
  | some c => (some c.reset, true)

/-! ## Component state and event semantics -/

/-- The `Block` component's state: the two `useState` hooks (lines 68-69),
the `controlsRef` ref (line 70), whether the mount-effect timer is still
pending, whether the component has been unmounted, and the `postMessage`
calls performed so far. -/
structure BlockState where
  autoRotate : Bool
  cameraMode : String
  controlsRef : Option Controls
  timerActive : Bool
  unmounted : Bool
  posted : List Post
  deriving DecidableEq, Repr

/-- State right after mount: `useState(true)` (line 68), `useState('orbit')`
(line 69), `useRef()` (line 70), and the mount effect has armed the timer. -/
def initialBlockState : BlockState :=
  { autoRotate := true
    cameraMode := "orbit"
    controlsRef := none
    timerActive := true
    unmounted := false
    posted := [] }

/-- Events the component reacts to after mount. -/
inductive Event where
  /-- The `setTimeout` delay elapses. -/
  | timerFire
  /-- The auto-rotate checkbox fires `onChange` with the given checked
  value (line 142: `setAutoRotate(e.target.checked)`). -/
  | toggle (checked : Bool)
  /-- The Reset Camera button fires `onClick={resetCamera}` (line 150). -/
  | resetClick
  /-- The component unmounts; the effect cleanup `clearTimeout(timer)`
  (line 78) runs. -/
  | unmount
  deriving DecidableEq, Repr

/-- One step of the component's event semantics, straight from the
handlers in block.tsx. A fired timer performs the two `postMessage`
calls and is spent; `clearTimeout` at unmount disarms a pending timer. -/
def step (s : BlockState) (e : Event) : BlockState :=
  match e with
  | Event.timerFire =>
      if s.timerActive then
        { s with timerActive := false, posted := s.posted ++ completionPosts }
      else s
  | Event.toggle b => { s with autoRotate := b }
  | Event.resetClick => { s with controlsRef := (resetCamera s.controlsRef).1 }
  | Event.unmount => { s with unmounted := true, timerActive := false }

/-- The component state after a sequence of post-mount events. -/
def run (evs : List Event) : BlockState :=
  evs.foldl step initialBlockState

/-! ## Props flowing into the scene (lines 199-201) -/

/-- The props `Block` passes to `DuckModel` (line 200:
`<DuckModel autoRotate={autoRotate} scale={1.5} />`, with the default
`position = [0, 0, 0]` from line 13). -/
structure DuckModelProps where
  position : ℚ × ℚ × ℚ
  scale : ℚ
  autoRotate : Bool
  deriving DecidableEq, Repr

/-- The `DuckModel` props as a function of the component state. -/
def duckModelProps (s : BlockState) : DuckModelProps :=
  { position := (0, 0, 0)
    scale := 1.5
    autoRotate := s.autoRotate }

/-! ## The asset URL (line 17) -/

/-- The string literal passed to `useLoader(GLTFLoader, ...)` in
`DuckModel` (line 17). -/
def duckModelAssetURL : String :=
  "https://content.mext.app/uploads/bae853a8-ee93-4c72-9007-d73e1df8dba9.glb"

/-- The props of the `Block` component (block.tsx lines 7-10). -/
structure BlockProps where
  title : Option String
  description : Option String
  deriving DecidableEq, Repr

/-- The URL handed to the 3D asset loader, as a function of the component
props and of the user-interaction history. The `useLoader` call site
(line 17) is a string literal; no prop, state or interaction occurs in it. -/
def loaderURL (props : BlockProps) (interactions : List Event) : String :=
  duckModelAssetURL

/-! ## `DuckModel`'s per-frame callback (lines 20-24) -/

/-- The transform data of the `<group>` the `meshRef` points at. -/
structure Group where
  position : ℚ × ℚ × ℚ
  rotationX : ℚ
  rotationY : ℚ
  rotationZ : ℚ
  scale : ℚ
  deriving DecidableEq, Repr

/-- The literal `0.5` multiplier of line 22. -/
def rotationSpeed : ℚ := 0.5

/-- The `useFrame` callback of `DuckModel` (lines 20-24):
`if (meshRef.current && autoRotate) meshRef.current.rotation.y += delta * 0.5`.
The ref may be null before the group is attached. -/
def duckModelFrame (meshRef : Option Group) (autoRotate : Bool) (delta : ℚ) :
    Option Group :=
  match meshRef with
  | none => none
  | some g =>
      if autoRotate then
        some { g with rotationY := g.rotationY + delta * rotationSpeed }
      else some g

end Block

/-! ## Helper lemmas -/

namespace Block

/-- No event writes `cameraMode`: `setCameraMode` is never invoked. -/
lemma step_cameraMode (s : BlockState) (e : Event) :
    (step s e).cameraMode = s.cameraMode := by
  cases e with
  | timerFire => by_cases h : s.timerActive <;> simp [step, h]
  | toggle b => rfl
  | resetClick => rfl
  | unmount => rfl

lemma foldl_cameraMode (evs : List Event) (s : BlockState) :
    (evs.foldl step s).cameraMode = s.cameraMode := by
  induction evs generalizing s with
  | nil => rfl
  | cons e evs ih => simp [List.foldl_cons, ih, step_cameraMode]

/-- Once the timer has fired and the posted list holds the completion
posts, every further event leaves both untouched. -/
lemma fired_persists (evs : List Event) (s : BlockState)
    (hp : s.posted = completionPosts) (ht : s.timerActive = false) :
    (evs.foldl step s).posted = completionPosts ∧
      (evs.foldl step s).timerActive = false := by
  induction evs generalizing s with
  | nil => exact ⟨hp, ht⟩
  | cons e evs ih =>
      cases e with
      | timerFire => simpa [List.foldl_cons, step, ht] using ih s hp ht
      | toggle b => exact ih _ hp ht
      | resetClick => exact ih _ hp ht
      | unmount => exact ih _ hp rfl

/-- Before the timer fires and before unmount, a non-timer, non-unmount
event keeps the timer armed and the posted list empty. -/
lemma armed_step (s : BlockState) (e : Event)
    (ht : s.timerActive = true) (hp : s.posted = [])
    (hf : e ≠ Event.timerFire) (hu : e ≠ Event.unmount) :
    (step s e).timerActive = true ∧ (step s e).posted = [] := by
  cases e with
  | timerFire => exact absurd rfl hf
  | toggle b => exact ⟨ht, hp⟩
  | resetClick => exact ⟨ht, hp⟩
  | unmount => exact absurd rfl hu

/-- From an armed state, a run with no unmount that contains a timer
firing ends with exactly the completion posts posted. -/
lemma armed_run_fires (evs : List Event) (s : BlockState)
    (ht : s.timerActive = true) (hp : s.posted = [])
    (hu : Event.unmount ∉ evs) (hf : Event.timerFire ∈ evs) :
    (evs.foldl step s).posted = completionPosts := by
  induction evs generalizing s with
  | nil => cases hf
  | cons e evs ih =>
      by_cases he : e = Event.timerFire
      · subst he
        have hstep : (step s Event.timerFire).posted = completionPosts ∧
            (step s Event.timerFire).timerActive = false := by
          simp [step, ht, hp]
        simpa [List.foldl_cons] using
          (fired_persists evs _ hstep.1 hstep.2).1
      · have hu' : Event.unmount ∉ evs := fun h => hu (List.mem_cons_of_mem _ h)
        have heu : e ≠ Event.unmount := by
          intro h; exact hu (h ▸ List.mem_cons_self _ _)
        have hf' : Event.timerFire ∈ evs := by
          rcases List.mem_cons.mp hf with h | h
          · exact absurd h.symm he
          · exact h
        have harm := armed_step s e ht hp he heu
        simpa [List.foldl_cons] using ih _ harm.1 harm.2 hu' hf'
  
/-- Invariant: the posted list is empty or exactly the completion posts,
and it is empty while the timer is armed. -/
def PostInv (s : BlockState) : Prop :=
  (s.posted = [] ∨ s.posted = completionPosts) ∧
    (s.timerActive = true → s.posted = [])

lemma postInv_step (s : BlockState) (e : Event) (h : PostInv s) :
    PostInv (step s e) := by
  obtain ⟨h1, h2⟩ := h
  cases e with
  | timerFire =>
      by_cases ht : s.timerActive
      · have hp := h2 ht
        constructor
        · right; simp [step, ht, hp]
        · intro hc; simp [step, ht] at hc
      · simpa [step, ht] using ⟨h1, h2⟩
  | toggle b => exact ⟨h1, h2⟩
  | resetClick => exact ⟨h1, h2⟩
  | unmount =>
      refine ⟨h1, ?_⟩
      intro hc
      simp [step] at hc
  
lemma postInv_foldl (evs : List Event) (s : BlockState) (h : PostInv s) :
    PostInv (evs.foldl step s) := by
  induction evs generalizing s with
  | nil => exact h
  | cons e evs ih => exact ih _ (postInv_step s e h)

end Block

/-! ## Claim theorems -/

namespace Block

/-- Sample OrbitControls camera state, for witnesses. -/
def sampleCamera : CameraState :=
  { position := (5, 5, 5), target := (0, 0, 0), zoom := 1 }

/-- Sample attached OrbitControls instance, for witnesses. -/
def sampleControls : Controls :=
  { saved := sampleCamera, current := sampleCamera }

/-- Sample attached group transform, for witnesses. -/
def sampleGroup : Group :=
  { position := (0, 0, 0), rotationX := 0, rotationY := 2, rotationZ := 0
    scale := 3/2 }

/-- Claim C1: a mount that is not unmounted before the delay elapses posts
exactly one completion notification of the fixed shape
`{type: BLOCK_COMPLETION, blockId: 685da7c487fb8b8b70d865d2, completed: true}`
to the current window and exactly one to the parent window, at
`notificationFireTime` = 1000 ms (the bounded ~1 second delay) after mount. -/
theorem claim_C1_completion_notification (u : Option Nat)
    (h : ∀ t, u = some t → NOTIFY_DELAY_MS ≤ t) :
    postedByTime u = completionPosts ∧
    (postedByTime u).count (postToWindow Target.self completionMessage "*") = 1 ∧
    (postedByTime u).count (postToWindow Target.parent completionMessage "*") = 1 ∧
    notificationFireTime = 1000 := by
  have hfire : timerFires u = true := by
    cases u with
    | none => rfl
    | some t => simpa [timerFires] using h t rfl
  have hp : postedByTime u = completionPosts := by
    simp [postedByTime, hfire]
  refine ⟨hp, ?_, ?_, rfl⟩ <;> rw [hp] <;> decide

/-- Witness for C1: the never-unmounted execution. -/
theorem claim_C1_witness :
    postedByTime none = completionPosts ∧
    (postedByTime none).count (postToWindow Target.self completionMessage "*") = 1 ∧
    (postedByTime none).count (postToWindow Target.parent completionMessage "*") = 1 ∧
    notificationFireTime = 1000 :=
  claim_C1_completion_notification none (fun t h => nomatch h)

/-- Claim C2: unmounting strictly before the delay elapses suppresses the
notification entirely: no message is posted to either context, and the
unmount cleanup disarms the pending timer without posting anything. -/
theorem claim_C2_unmount_suppresses (t : Nat) (s : BlockState)
    (h : t < NOTIFY_DELAY_MS) :
    postedByTime (some t) = [] ∧
    (step s Event.unmount).timerActive = false ∧
    (step s Event.unmount).posted = s.posted := by
  have hnot : ¬ NOTIFY_DELAY_MS ≤ t := by omega
  exact ⟨by simp [postedByTime, timerFires, hnot], rfl, rfl⟩

/-- Witness for C2: unmount at 500 ms, from the freshly mounted state. -/
theorem claim_C2_witness :
    postedByTime (some 500) = [] ∧
    (step initialBlockState Event.unmount).timerActive = false ∧
    (step initialBlockState Event.unmount).posted = initialBlockState.posted :=
  claim_C2_unmount_suppresses 500 initialBlockState (by decide)

/-- Claim C3: toggling the auto-rotate checkbox sets `autoRotate` to the
checkbox value and changes nothing else: `cameraMode`, the controls
reference, the pending timer, the unmounted flag, the posted messages,
and the position and scale props passed to `DuckModel` are all unchanged;
only the `autoRotate` prop flowing downstream takes the new value. -/
theorem claim_C3_toggle_only_autoRotate (s : BlockState) (b : Bool) :
    (step s (Event.toggle b)).autoRotate = b ∧
    (step s (Event.toggle b)).cameraMode = s.cameraMode ∧
    (step s (Event.toggle b)).controlsRef = s.controlsRef ∧
    (step s (Event.toggle b)).timerActive = s.timerActive ∧
    (step s (Event.toggle b)).unmounted = s.unmounted ∧
    (step s (Event.toggle b)).posted = s.posted ∧
    (duckModelProps (step s (Event.toggle b))).position = (duckModelProps s).position ∧
    (duckModelProps (step s (Event.toggle b))).scale = (duckModelProps s).scale ∧
    (duckModelProps (step s (Event.toggle b))).autoRotate = b :=
  ⟨rfl, rfl, rfl, rfl, rfl, rfl, rfl, rfl, rfl⟩

/-- Witness for C3: toggling off from the initial state. -/
theorem claim_C3_witness :
    (step initialBlockState (Event.toggle false)).autoRotate = false ∧
    (step initialBlockState (Event.toggle false)).cameraMode =
      initialBlockState.cameraMode ∧
    (step initialBlockState (Event.toggle false)).controlsRef =
      initialBlockState.controlsRef ∧
    (step initialBlockState (Event.toggle false)).timerActive =
      initialBlockState.timerActive ∧
    (step initialBlockState (Event.toggle false)).unmounted =
      initialBlockState.unmounted ∧
    (step initialBlockState (Event.toggle false)).posted =
      initialBlockState.posted ∧
    (duckModelProps (step initialBlockState (Event.toggle false))).position =
      (duckModelProps initialBlockState).position ∧
    (duckModelProps (step initialBlockState (Event.toggle false))).scale =
      (duckModelProps initialBlockState).scale ∧
    (duckModelProps (step initialBlockState (Event.toggle false))).autoRotate =
      false :=
  claim_C3_toggle_only_autoRotate initialBlockState false

/-- Claim C4: clicking Reset Camera with a null controls reference is a
no-op: the component state is entirely unchanged and `reset()` is not
invoked; `reset()` is invoked exactly when the reference is non-null. -/
theorem claim_C4_reset_noop_when_null (s : BlockState)
    (h : s.controlsRef = none) :
    step s Event.resetClick = s ∧
    (resetCamera s.controlsRef).2 = false ∧
    (∀ c : Controls, (resetCamera (some c)).2 = true ∧
      (resetCamera (some c)).1 = some c.reset) := by
  obtain ⟨a, cm, cr, ta, um, p⟩ := s
  simp only at h
  subst h
  exact ⟨rfl, rfl, fun c => ⟨rfl, rfl⟩⟩

/-- Witness for C4: the initial state has a null reference; the click
leaves it untouched, while an attached instance would be reset. -/
theorem claim_C4_witness :
    initialBlockState.controlsRef = none ∧
    step initialBlockState Event.resetClick = initialBlockState ∧
    (resetCamera initialBlockState.controlsRef).2 = false ∧
    (resetCamera (some sampleControls)).2 = true := by
  obtain ⟨h1, h2, h3⟩ := claim_C4_reset_noop_when_null initialBlockState rfl
  exact ⟨rfl, h1, h2, (h3 sampleControls).1⟩

/-- Claim C5: across any two executions with any props and any interaction
sequences, the URL handed to the 3D asset loader is the same, and it is
the fixed constant of block.tsx line 17; no user-controlled input
influences it. -/
theorem claim_C5_fixed_asset_url (p q : BlockProps) (evs fvs : List Event) :
    loaderURL p evs = loaderURL q fvs ∧
    loaderURL p evs =
      "https://content.mext.app/uploads/bae853a8-ee93-4c72-9007-d73e1df8dba9.glb" :=
  ⟨rfl, rfl⟩

/-- Witness for C5: two executions with different props and interactions. -/
theorem claim_C5_witness :
    loaderURL { title := some "A", description := none } [Event.toggle false] =
      loaderURL { title := none, description := some "B" } [Event.resetClick] ∧
    loaderURL { title := some "A", description := none } [Event.toggle false] =
      "https://content.mext.app/uploads/bae853a8-ee93-4c72-9007-d73e1df8dba9.glb" :=
  claim_C5_fixed_asset_url _ _ _ _

/-- Claim C6: for every post-mount event sequence the posted list is empty
or exactly the one pair of completion posts (exactly once, fixed content,
no retry); and in any sequence without an unmount, a timer firing always
produces the posts, whatever interactions or repeated timer signals
surround it — the emission is unconditional and independent of any state
change after mount. -/
theorem claim_C6_exactly_once_unconditional (evs : List Event) :
    ((run evs).posted = [] ∨ (run evs).posted = completionPosts) ∧
    (Event.unmount ∉ evs → Event.timerFire ∈ evs →
      (run evs).posted = completionPosts) := by
  constructor
  · exact (postInv_foldl evs initialBlockState ⟨Or.inl rfl, fun _ => rfl⟩).1
  · intro hu hf
    exact armed_run_fires evs initialBlockState rfl rfl hu hf

/-- Witness for C6: a run with interactions and a duplicate timer signal
still posts exactly the completion pair. -/
theorem claim_C6_witness :
    (run [Event.toggle false, Event.timerFire, Event.resetClick,
      Event.timerFire]).posted = completionPosts :=
  (claim_C6_exactly_once_unconditional _).2 (by decide) (by decide)

/-- Claim C7: `cameraMode` is initialized to orbit, no event ever writes
it (its setter is never invoked by any code path), it equals orbit after
every event sequence, and it has no effect on the props flowing to the
scene. -/
theorem claim_C7_cameraMode_constant (s : BlockState) (e : Event)
    (evs : List Event) (m : String) :
    initialBlockState.cameraMode = "orbit" ∧
    (step s e).cameraMode = s.cameraMode ∧
    (run evs).cameraMode = "orbit" ∧
    duckModelProps { s with cameraMode := m } = duckModelProps s :=
  ⟨rfl, step_cameraMode s e,
    by simpa [run] using foldl_cameraMode evs initialBlockState, rfl⟩

/-- Witness for C7: a concrete state, event and run. -/
theorem claim_C7_witness :
    initialBlockState.cameraMode = "orbit" ∧
    (step initialBlockState (Event.toggle false)).cameraMode =
      initialBlockState.cameraMode ∧
    (run [Event.timerFire, Event.resetClick]).cameraMode = "orbit" ∧
    duckModelProps { initialBlockState with cameraMode := "fly" } =
      duckModelProps initialBlockState :=
  claim_C7_cameraMode_constant initialBlockState (Event.toggle false)
    [Event.timerFire, Event.resetClick] "fly"

/-- Claim C8: on an animation frame with auto-rotate on and the group ref
attached, the y-rotation grows by exactly `delta * 0.5` and no other
transform component changes (the record update touches only `rotationY`);
with the flag off, or with a null ref, the transform is unchanged. -/
theorem claim_C8_frame_rotation (g : Group) (a : Bool) (d : ℚ) :
    duckModelFrame (some g) true d =
      some { g with rotationY := g.rotationY + d * (1/2) } ∧
    duckModelFrame (some g) false d = some g ∧
    duckModelFrame none a d = none := by
  have h05 : rotationSpeed = (1 : ℚ)/2 := by norm_num [rotationSpeed]
  exact ⟨by simp [duckModelFrame, h05], rfl, rfl⟩

/-- Witness for C8: a concrete group and delta. -/
theorem claim_C8_witness :
    duckModelFrame (some sampleGroup) true 4 =
      some { sampleGroup with rotationY := sampleGroup.rotationY + 4 * (1/2) } ∧
    duckModelFrame (some sampleGroup) false 4 = some sampleGroup ∧
    duckModelFrame none true 4 = none :=
  claim_C8_frame_rotation sampleGroup true 4

/-- Claim C9: the auto-rotate flag starts out true at mount. -/
theorem claim_C9_autoRotate_default : initialBlockState.autoRotate = true :=
  rfl

/-- Claim C10: both completion posts carry the wildcard target origin,
are addressed to the current window and the parent in turn, and hold the
identical fixed message, independent of the receiving origin. -/
theorem claim_C10_wildcard_origin :
    completionPosts.map Post.origin = ["*", "*"] ∧
    completionPosts.map Post.target = [Target.self, Target.parent] ∧
    completionPosts.map Post.msg = [completionMessage, completionMessage] :=
  ⟨rfl, rfl, rfl⟩

end Block
